import Mathlib

/-!
Verification of the `world-backend` repository (world_model.py, validator.py,
world_engine.py, storage.py) against its natural-language specification.

The Python code manipulates JSON-like dictionaries.  We embed those values as
the inductive type `JVal` (null / bool / int / str / list / dict with string
keys, in insertion order, keys unique as in a Python `dict`), and embed each
Python function as a Lean function over `JVal`.  Fallible Python code (code
that can raise) is embedded in `Except PyErr`, where `PyErr` distinguishes the
repository's own `ValidationErrorDetail` from builtin Python exceptions
(`TypeError`, `AttributeError`, `KeyError`, `IndexError`, ...), since
`apply_update` catches only the former.
-/

/-- A JSON-like Python value.  `obj` models a Python `dict` with string keys
in insertion order (keys are unique in an actual `dict`). -/
inductive JVal where
  | null : JVal
  | bool : Bool → JVal
  | int : Int → JVal
  | str : String → JVal
  | arr : List JVal → JVal
  | obj : List (String × JVal) → JVal
deriving Repr

mutual

/-- Decidable equality on `JVal` (deep equality of Python values; the Python
nuance that `1 == True` is not modelled — no claim compares across types). -/
def JVal.decEq : (a b : JVal) → Decidable (a = b)
  | .null, .null => isTrue rfl
  | .bool a, .bool b =>
    if h : a = b then isTrue (by rw [h]) else isFalse (fun hc => by cases hc; exact h rfl)
  | .int a, .int b =>
    if h : a = b then isTrue (by rw [h]) else isFalse (fun hc => by cases hc; exact h rfl)
  | .str a, .str b =>
    if h : a = b then isTrue (by rw [h]) else isFalse (fun hc => by cases hc; exact h rfl)
  | .arr xs, .arr ys =>
    match JVal.decEqList xs ys with
    | isTrue h => isTrue (by rw [h])
    | isFalse h => isFalse (fun hc => by cases hc; exact h rfl)
  | .obj xs, .obj ys =>
    match JVal.decEqObj xs ys with
    | isTrue h => isTrue (by rw [h])
    | isFalse h => isFalse (fun hc => by cases hc; exact h rfl)
  | .null, .bool _ | .null, .int _ | .null, .str _ | .null, .arr _ | .null, .obj _
  | .bool _, .null | .bool _, .int _ | .bool _, .str _ | .bool _, .arr _ | .bool _, .obj _
  | .int _, .null | .int _, .bool _ | .int _, .str _ | .int _, .arr _ | .int _, .obj _
  | .str _, .null | .str _, .bool _ | .str _, .int _ | .str _, .arr _ | .str _, .obj _
  | .arr _, .null | .arr _, .bool _ | .arr _, .int _ | .arr _, .str _ | .arr _, .obj _
  | .obj _, .null | .obj _, .bool _ | .obj _, .int _ | .obj _, .str _ | .obj _, .arr _ =>
    isFalse (by intro hc; exact JVal.noConfusion hc)

/-- Decidable equality on lists of `JVal`. -/
def JVal.decEqList : (xs ys : List JVal) → Decidable (xs = ys)
  | [], [] => isTrue rfl
  | [], _ :: _ => isFalse (by intro hc; exact List.noConfusion hc)
  | _ :: _, [] => isFalse (by intro hc; exact List.noConfusion hc)
  | x :: xs, y :: ys =>
    match JVal.decEq x y with
    | isFalse h => isFalse (fun hc => by cases hc; exact h rfl)
    | isTrue h =>
      match JVal.decEqList xs ys with
      | isTrue h2 => isTrue (by rw [h, h2])
      | isFalse h2 => isFalse (fun hc => by cases hc; exact h2 rfl)

/-- Decidable equality on key-value lists of `JVal`. -/
def JVal.decEqObj : (xs ys : List (String × JVal)) → Decidable (xs = ys)
  | [], [] => isTrue rfl
  | [], _ :: _ => isFalse (by intro hc; exact List.noConfusion hc)
  | _ :: _, [] => isFalse (by intro hc; exact List.noConfusion hc)
  | (k, x) :: xs, (k2, y) :: ys =>
    if hk : k = k2 then
      match JVal.decEq x y with
      | isFalse h => isFalse (fun hc => by cases hc; exact h rfl)
      | isTrue h =>
        match JVal.decEqObj xs ys with
        | isTrue h2 => isTrue (by rw [hk, h, h2])
        | isFalse h2 => isFalse (fun hc => by cases hc; exact h2 rfl)
    else isFalse (fun hc => by cases hc; exact hk rfl)

end

instance : DecidableEq JVal := JVal.decEq

/-- The error kinds relevant to the embedded code.  `validationErr` is the
repository's `ValidationErrorDetail(message, details)`; the others are Python
builtin exceptions; `fileNotFound` is `FileNotFoundError`; `jsonDecodeErr` is
`json.JSONDecodeError`. -/
inductive PyErr where
  | validationErr : String → Option String → PyErr
  | typeErr : PyErr
  | attributeErr : PyErr
  | keyErr : PyErr
  | indexErr : PyErr
  | fileNotFound : PyErr
  | jsonDecodeErr : PyErr
deriving Repr, DecidableEq

/-- Computations that may raise a Python exception. -/
abbrev Py (α : Type) := Except PyErr α

/-- First-match association lookup; on a Python `dict` (unique keys) this is
exactly `d[k]` when the key is present. -/
def JVal.lookup : List (String × JVal) → String → Option JVal
  | [], _ => none
  | (a, b) :: t, k => if a = k then some b else JVal.lookup t k

/-- `d[k] = v` on a Python dict: replace the value in place if the key is
present (keeping its position, as CPython does), else append the new pair. -/
def assocSet : List (String × JVal) → String → JVal → List (String × JVal)
  | [], k, v => [(k, v)]
  | (a, b) :: t, k, v => if a = k then (k, v) :: t else (a, b) :: assocSet t k v

/-- Python truthiness (`if not x`): `None`, `False`, `0`, `""`, `[]`, and
empty dicts are falsy. -/
def JVal.truthy : JVal → Bool
  | .null => false
  | .bool b => b
  | .int n => n != 0
  | .str s => s != ""
  | .arr xs => !xs.isEmpty
  | .obj kvs => !kvs.isEmpty

/-- `d.get(k, dflt)` (default `None`): `AttributeError` when the receiver is
not a dict. -/
def JVal.get (v : JVal) (k : String) (dflt : JVal := .null) : Py JVal :=
  match v with
  | .obj kvs => .ok ((JVal.lookup kvs k).getD dflt)
  | _ => .error .attributeErr

/-- `d[k]` subscription with a string key: `KeyError` when absent,
`TypeError` when the receiver is not subscriptable by a string. -/
def pyIndex (v : JVal) (k : String) : Py JVal :=
  match v with
  | .obj kvs =>
    match JVal.lookup kvs k with
    | some x => .ok x
    | none => .error .keyErr
  | _ => .error .typeErr

/-- `x in d` for a dict `d` (key membership): only a string can match a key;
an unhashable `x` (list/dict) raises `TypeError`. -/
def keyMem (x : JVal) (kvs : List (String × JVal)) : Py Bool :=
  match x with
  | .str s => .ok ((JVal.lookup kvs s).isSome)
  | .arr _ => .error .typeErr
  | .obj _ => .error .typeErr
  | _ => .ok false

/-- `x in c` for a container `c`: dict key membership, list membership, and
`TypeError` for non-container receivers.  (Substring membership on strings is
never reached by the validator: the containers there are dicts and lists.) -/
def pyIn (x c : JVal) : Py Bool :=
  match c with
  | .obj kvs => keyMem x kvs
  | .arr xs => .ok (xs.contains x)
  | _ => .error .typeErr

/-- `x < 0`: defined for ints and bools (`False`/`True` are `0`/`1`);
`TypeError` otherwise (e.g. a string compared with an int). -/
def JVal.ltZero : JVal → Py Bool
  | .int n => .ok (n < 0)
  | .bool _ => .ok false
  | _ => .error .typeErr

/-- `isinstance(x, int)`: `bool` is a subclass of `int` in Python. -/
def JVal.isInt : JVal → Bool
  | .int _ => true
  | .bool _ => true
  | _ => false

/-- `str(x)` for the scalar values interpolated into the repository's message
strings.  (The repr of lists/dicts is never interpolated by the claims.) -/
def JVal.pyStr : JVal → String
  | .null => "None"
  | .bool b => if b then "True" else "False"
  | .int n => toString n
  | .str s => s
  | .arr _ => "<list>"
  | .obj _ => "<dict>"

/-- Iterating a value with `for`: a list yields its elements, a dict yields
its keys; other receivers of the validator's loops raise `TypeError`. -/
def asList : JVal → Py (List JVal)
  | .arr xs => .ok xs
  | .obj kvs => .ok (kvs.map fun p => JVal.str p.1)
  | _ => .error .typeErr

/-- `random.choice(xs)` where the random draw lands on index `i % xs.length`;
raises `IndexError` on an empty sequence, exactly as `random.choice` does. -/
def pyChoice {α : Type} (xs : List α) (i : Nat) : Py α :=
  if h : xs.length ≠ 0 then
    .ok (xs.get ⟨i % xs.length, Nat.mod_lt i (Nat.pos_of_ne_zero h)⟩)
  else .error .indexErr

/-!
## Document model (world_model.py)

Pydantic models `City`, `Region`, `World`.  `City.population` carries
`Field(ge=0)`, so a parsed city always has a non-negative population — we use
`Nat`.  `World.created_at` is an optional datetime, serialized in this
repository as an ISO string; we model it as an optional string (the ISO
well-formedness of the string is not inspected by any claim).  `parse*` is
`Model.parse_obj`: field presence, type conformance (the claims never exercise
pydantic's numeric-string coercions, which are not modelled), default-filling
of the optional collections, and extra keys ignored.  The error value is the
schema-error text (abbreviated relative to pydantic's exact rendering; no
claim inspects its content).
-/

/-- `City` from world_model.py. -/
structure City where
  name : String
  population : Nat
  attributes : List (String × JVal)
deriving Repr, DecidableEq

/-- `Region` from world_model.py: `cities` is a list of city names. -/
structure Region where
  name : String
  cities : List String
  resources : List String
deriving Repr, DecidableEq

/-- `World` from world_model.py: `cities` is a mapping keyed by city name. -/
structure World where
  name : String
  regions : List Region
  cities : List (String × City)
  metadata : List (String × JVal)
  created_at : Option String
deriving Repr, DecidableEq

/-- `City.parse_obj`. -/
def parseCity (v : JVal) : Except String City :=
  match v with
  | .obj kvs =>
    match JVal.lookup kvs "name" with
    | some (.str nm) =>
      match JVal.lookup kvs "population" with
      | some (.int p) =>
        if 0 ≤ p then
          match JVal.lookup kvs "attributes" with
          | some (.obj a) => .ok ⟨nm, p.toNat, a⟩
          | none => .ok ⟨nm, p.toNat, []⟩
          | some _ => .error "attributes: value is not a valid dict"
        else .error "population: ensure this value is greater than or equal to 0"
      | some _ => .error "population: value is not a valid integer"
      | none => .error "population: field required"
    | some _ => .error "name: str type expected"
    | none => .error "name: field required"
  | _ => .error "City: value is not a valid dict"

/-- Parse a JSON list as a list of strings (`List[str]`). -/
def parseStrList : List JVal → Except String (List String)
  | [] => .ok []
  | .str s :: t => (parseStrList t).map fun r => s :: r
  | _ :: _ => .error "str type expected"

/-- Parse an optional `List[str]` field (absent defaults to `[]`). -/
def parseStrListField (f : Option JVal) : Except String (List String) :=
  match f with
  | some (.arr xs) => parseStrList xs
  | none => .ok []
  | some _ => .error "value is not a valid list"

/-- `Region.parse_obj`. -/
def parseRegion (v : JVal) : Except String Region :=
  match v with
  | .obj kvs =>
    match JVal.lookup kvs "name" with
    | some (.str nm) => do
      let cs ← parseStrListField (JVal.lookup kvs "cities")
      let rs ← parseStrListField (JVal.lookup kvs "resources")
      .ok ⟨nm, cs, rs⟩
    | some _ => .error "name: str type expected"
    | none => .error "name: field required"
  | _ => .error "Region: value is not a valid dict"

/-- Parse the world's city mapping (`Dict[str, City]`). -/
def parseCityMap : List (String × JVal) → Except String (List (String × City))
  | [] => .ok []
  | (k, v) :: t => do
    let c ← parseCity v
    let rest ← parseCityMap t
    .ok ((k, c) :: rest)

/-- Parse a JSON list as a list of regions (`List[Region]`). -/
def parseRegionList : List JVal → Except String (List Region)
  | [] => .ok []
  | v :: t => do
    let r ← parseRegion v
    let rest ← parseRegionList t
    .ok (r :: rest)

/-- Parse the optional `regions` field (absent defaults to `[]`). -/
def parseRegionsField (f : Option JVal) : Except String (List Region) :=
  match f with
  | some (.arr xs) => parseRegionList xs
  | none => .ok []
  | some _ => .error "regions: value is not a valid list"

/-- Parse the optional `cities` field (absent defaults to `{}`). -/
def parseCitiesField (f : Option JVal) : Except String (List (String × City)) :=
  match f with
  | some (.obj ckvs) => parseCityMap ckvs
  | none => .ok []
  | some _ => .error "cities: value is not a valid dict"

/-- Parse the optional `metadata` field (absent defaults to `{}`). -/
def parseMetadataField (f : Option JVal) : Except String (List (String × JVal)) :=
  match f with
  | some (.obj mkvs) => .ok mkvs
  | none => .ok []
  | some _ => .error "metadata: value is not a valid dict"

/-- Parse the `created_at` field (`Optional[datetime]`). -/
def parseCreatedAtField (f : Option JVal) : Except String (Option String) :=
  match f with
  | some (.str s) => .ok (some s)
  | some .null => .ok none
  | none => .ok none
  | some _ => .error "created_at: invalid datetime format"

/-- `World.parse_obj` (the `ensure_city_keys` validator is a no-op). -/
def parseWorld (v : JVal) : Except String World :=
  match v with
  | .obj kvs =>
    match JVal.lookup kvs "name" with
    | some (.str nm) => do
      let rs ← parseRegionsField (JVal.lookup kvs "regions")
      let cs ← parseCitiesField (JVal.lookup kvs "cities")
      let md ← parseMetadataField (JVal.lookup kvs "metadata")
      let ca ← parseCreatedAtField (JVal.lookup kvs "created_at")
      .ok ⟨nm, rs, cs, md, ca⟩
    | some _ => .error "name: str type expected"
    | none => .error "name: field required"
  | _ => .error "World: value is not a valid dict"

/-- Canonical raw (JSON) form of a parsed `City` — the dict shape the engine
itself builds for cities. -/
def City.toJVal (c : City) : JVal :=
  .obj [("name", .str c.name), ("population", .int c.population),
        ("attributes", .obj c.attributes)]

/-- Canonical raw form of a parsed `Region`. -/
def Region.toJVal (r : Region) : JVal :=
  .obj [("name", .str r.name), ("cities", .arr (r.cities.map JVal.str)),
        ("resources", .arr (r.resources.map JVal.str))]

/-- Canonical raw form of the world's city mapping. -/
def cityMapToJVal (cs : List (String × City)) : List (String × JVal) :=
  cs.map fun p => (p.1, p.2.toJVal)

/-- Canonical raw form of a parsed `World` — the dict shape the engine builds
and the request layer passes around. -/
def World.toJVal (w : World) : JVal :=
  .obj [("name", .str w.name),
        ("regions", .arr (w.regions.map Region.toJVal)),
        ("cities", .obj (cityMapToJVal w.cities)),
        ("metadata", .obj w.metadata),
        ("created_at", (w.created_at.map JVal.str).getD .null)]

/-!
## Update validator (validator.py, `validate_update`)

`ValidationErrorDetail` is `PyErr.validationErr message details`.  The
function follows the source line by line: world parse, `op` presence check,
the `regions = {r["name"]: r for r in world_dict.get("regions", [])}` helper
dict, `cities = world_dict.get("cities", {})`, then dispatch on `op`.
Python's short-circuit `or` in the `transfer_city` and `set_population`
checks is preserved (the right operand is only evaluated when the left one is
falsy).
-/

/-- The `{"valid": True}` result. -/
def validTrue : JVal := .obj [("valid", .bool true)]

/-- The helper dict `{r["name"]: r for r in ...}` (line 40 of validator.py).
Later entries overwrite earlier ones, as in a Python dict comprehension.
(A non-string `r["name"]` cannot occur once the world has parsed; it is
mapped to `TypeError` here.) -/
def regionsDictLoop : List JVal → List (String × JVal) → Py (List (String × JVal))
  | [], acc => .ok acc
  | r :: t, acc => do
    let nm ← pyIndex r "name"
    match nm with
    | .str s => regionsDictLoop t (assocSet acc s r)
    | _ => .error .typeErr

/-- See `regionsDictLoop`: the comprehension starts from the empty dict. -/
def regionsDictOf (rs : List JVal) : Py (List (String × JVal)) :=
  regionsDictLoop rs []

/-- `d[k]` with a `JVal` key against a string-keyed dict: `KeyError` on a
hashable miss, `TypeError` on an unhashable key. -/
def pyDictGet (kvs : List (String × JVal)) (k : JVal) : Py JVal :=
  match k with
  | .str s =>
    match JVal.lookup kvs s with
    | some v => .ok v
    | none => .error .keyErr
  | .arr _ | .obj _ => .error .typeErr
  | _ => .error .keyErr

/-- `validate_update(world_dict, update_payload)` from validator.py:
returns `{"valid": True}` or raises `ValidationErrorDetail`; other exceptions
(`TypeError`, `AttributeError`, ...) escape as themselves. -/
def validate_update (world_dict update_payload : JVal) : Py JVal := do
  -- lines 30-33: World.parse_obj(world_dict)
  match parseWorld world_dict with
  | .error e => throw (.validationErr "Current world data is invalid" (some e))
  | .ok _ => pure ()
  -- lines 35-37
  let op ← update_payload.get "op"
  if !op.truthy then
    throw (.validationErr "Missing 'op' field in update" none)
  -- lines 40-41: helper lookups
  let regionsRaw ← world_dict.get "regions" (.arr [])
  let regionsList ← asList regionsRaw
  let regions ← regionsDictOf regionsList
  let cities ← world_dict.get "cities" (.obj [])
  -- lines 43-54: add_city
  if op = .str "add_city" then
    let region_name ← update_payload.get "region"
    let city_obj ← update_payload.get "city"
    if !region_name.truthy || !city_obj.truthy then
      throw (.validationErr "add_city requires 'region' and 'city' fields" none)
    let regMem ← keyMem region_name regions
    if !regMem then
      throw (.validationErr ("Region '" ++ region_name.pyStr ++ "' does not exist") none)
    let cname ← city_obj.get "name"
    let cMem ← pyIn cname cities
    if cMem then
      throw (.validationErr ("City '" ++ cname.pyStr ++ "' already exists") none)
    let pop ← city_obj.get "population" (.int 0)
    let neg ← pop.ltZero
    if neg then
      throw (.validationErr "Population must be >= 0" none)
    return validTrue
  -- lines 56-66: add_resource
  if op = .str "add_resource" then
    let region_name ← update_payload.get "region"
    let resource ← update_payload.get "resource"
    if !region_name.truthy || !resource.truthy then
      throw (.validationErr "add_resource requires 'region' and 'resource'" none)
    let regMem ← keyMem region_name regions
    if !regMem then
      throw (.validationErr ("Region '" ++ region_name.pyStr ++ "' does not exist") none)
    let reg ← pyDictGet regions region_name
    let rres ← reg.get "resources" (.arr [])
    let dup ← pyIn resource rres
    if dup then
      throw (.validationErr ("Resource '" ++ resource.pyStr ++ "' already present in region") none)
    return validTrue
  -- lines 68-80: transfer_city
  if op = .str "transfer_city" then
    let city ← update_payload.get "city"
    let from_region ← update_payload.get "from"
    let to_region ← update_payload.get "to"
    if !city.truthy || !from_region.truthy || !to_region.truthy then
      throw (.validationErr "transfer_city requires 'city', 'from', 'to'" none)
    let fMem ← keyMem from_region regions
    let badRegion ←
      if !fMem then pure true
      else do
        let tMem ← keyMem to_region regions
        pure !tMem
    if badRegion then
      throw (.validationErr "Invalid 'from' or 'to' region" none)
    let cMem ← pyIn city cities
    if !cMem then
      throw (.validationErr "City does not exist" none)
    let fromReg ← pyDictGet regions from_region
    let fromCities ← fromReg.get "cities" (.arr [])
    let inFrom ← pyIn city fromCities
    if !inFrom then
      throw (.validationErr ("City not found in region '" ++ from_region.pyStr ++ "'") none)
    return validTrue
  -- lines 82-89: set_population
  if op = .str "set_population" then
    let city ← update_payload.get "city"
    let population ← update_payload.get "population"
    let cMem ← pyIn city cities
    if !cMem then
      throw (.validationErr "City does not exist" none)
    let badPop ←
      if !population.isInt then pure true
      else population.ltZero
    if badPop then
      throw (.validationErr "Population must be a non-negative integer" none)
    return validTrue
  -- line 92: unknown op
  throw (.validationErr ("Unknown operation: " ++ op.pyStr) none)

/-!
## Snapshot storage (storage.py)

The snapshot directory is modelled as an association list from snapshot id
(the `.json` file stem) to the file's JSON content — `none` standing for a
file whose text does not parse as JSON (a corrupt/partial write).
`json.dumps`/`json.loads` round-trip is the identity on `JVal`, which by
construction contains exactly the JSON-serializable values.  `SnapState`
additionally keeps the ordered log of `create_snapshot` calls (id and tag),
so that theorems can speak about how many snapshots an operation created.
-/

/-- The snapshot directory: file stem ↦ parsed content (or `none` if the
file's text fails `json.loads`). -/
abbrev Store := List (String × Option JVal)

/-- Find a file by stem. -/
def storeLookup : Store → String → Option (Option JVal)
  | [], _ => none
  | (a, b) :: t, k => if a = k then some b else storeLookup t k

/-- `path.write_text(...)`: overwrite if the file exists, else create it. -/
def storeSet : Store → String → Option JVal → Store
  | [], k, v => [(k, v)]
  | (a, b) :: t, k, v => if a = k then (k, v) :: t else (a, b) :: storeSet t k v

/-- The snapshot directory plus the ordered log of `create_snapshot` calls
(snapshot id, tag as persisted). -/
structure SnapState where
  store : Store
  log : List (String × String)
deriving Repr, DecidableEq

/-- `create_snapshot(world, tag)` from storage.py: builds
`{id, tag or "", created_at, world}`, writes it under `<id>.json` and returns
the id.  The fresh `uuid` hex and the current time are inputs (`sid`, `now`
with the code's `+ "Z"` suffix applied here). -/
def create_snapshot (world : JVal) (tag : Option String) (sid now : String)
    (st : SnapState) : String × SnapState :=
  let payload : JVal := .obj [("id", .str sid), ("tag", .str (tag.getD "")),
    ("created_at", .str (now ++ "Z")), ("world", world)]
  (sid, ⟨storeSet st.store sid (some payload), st.log ++ [(sid, tag.getD "")]⟩)

/-- The `{"id":…, "tag":…, "created_at":…}` summary built by
`list_snapshots` for one file, when the file's content deserializes to a
dict; `none` when `json.loads` or the `.get` calls raise (both are inside the
`try`, so such a file is skipped). -/
def snapEntry : Option JVal → Option JVal
  | some (.obj kvs) =>
    some (.obj [("id", (JVal.lookup kvs "id").getD .null),
      ("tag", (JVal.lookup kvs "tag").getD .null),
      ("created_at", (JVal.lookup kvs "created_at").getD .null)])
  | _ => none

/-- The sort key `s["created_at"]` of a summary entry, for entries whose
`created_at` is a string (the shape `create_snapshot` always persists). -/
def snapKey (e : JVal) : String :=
  match e with
  | .obj kvs =>
    match JVal.lookup kvs "created_at" with
    | some (.str s) => s
    | _ => ""
  | _ => ""

/-- Is the entry's `created_at` a string?  When it is not, Python's
`sort` would compare a non-string with a string and raise `TypeError`. -/
def snapKeyOk (e : JVal) : Bool :=
  match e with
  | .obj kvs =>
    match JVal.lookup kvs "created_at" with
    | some (.str _) => true
    | _ => false
  | _ => false

/-- The descending `created_at` order used by `snapshots.sort(..., reverse=True)`. -/
def snapLE (a b : JVal) : Prop := snapKey b ≤ snapKey a

instance : DecidableRel snapLE := fun _ _ => String.decidableLE _ _

instance : IsTotal JVal snapLE := ⟨fun a b => le_total (snapKey b) (snapKey a)⟩

instance : IsTrans JVal snapLE := ⟨fun _ _ _ h1 h2 => le_trans h2 h1⟩

/-- `list_snapshots()` from storage.py: one summary per file whose content
deserializes to a dict (any exception inside the `try` skips the file), then
sorted by `created_at`, newest first.  When some kept entry's `created_at` is
not a string the comparison raises `TypeError` (Python would only raise once
such a comparison is actually executed; no claim distinguishes this).  The
file enumeration order of `glob` is the store's list order. -/
def list_snapshots (st : Store) : Py (List JVal) :=
  let snapshots := st.filterMap fun p => snapEntry p.2
  if snapshots.all snapKeyOk then
    .ok (List.insertionSort snapLE snapshots)
  else .error .typeErr

/-- `load_snapshot(snapshot_id)` from storage.py: `FileNotFoundError` when no
such file, `json.JSONDecodeError` when its text does not parse (the code uses
no `try` here), else `data["world"]`. -/
def load_snapshot (sid : String) (store : Store) : Py JVal :=
  match storeLookup store sid with
  | none => .error .fileNotFound
  | some none => .error .jsonDecodeErr
  | some (some data) => pyIndex data "world"

/-- `rollback_to(snapshot_id)` from storage.py: exactly `load_snapshot`. -/
def rollback_to (sid : String) (store : Store) : Py JVal :=
  load_snapshot sid store

/-!
## World engine (world_engine.py)

Randomness, fresh uuids and clock reads are inputs: each engine function
takes the values the random source / uuid generator / clock would have
produced (one argument per call site, indexed where a call happens in a
loop).  In-place mutation of the world dict is modelled by returning the
updated value; `apply_update` returns the triple
(python result value, final world value, final snapshot state).
-/

/-- The loop `for r in world["regions"]: if r["name"] == X:
r.setdefault(key, []).append(v); break` used by the `add_city` and
`add_resource` branches of `apply_update` (they differ only in `key`). -/
def setdefaultAppend (r : JVal) (key : String) (x : JVal) : Py JVal :=
  match r with
  | .obj kvs =>
    match JVal.lookup kvs key with
    | some (.arr xs) => .ok (.obj (assocSet kvs key (.arr (xs ++ [x]))))
    | some _ => .error .attributeErr
    | none => .ok (.obj (assocSet kvs key (.arr [x])))
  | _ => .error .attributeErr

/-- First-match-then-break region loop of `add_city` / `add_resource`. -/
def appendFirstMatch : List JVal → JVal → String → JVal → Py (List JVal)
  | [], _, _, _ => .ok []
  | r :: t, rn, key, x => do
    let nm ← pyIndex r "name"
    if nm = rn then
      let r2 ← setdefaultAppend r key x
      return (r2 :: t)
    else
      let t2 ← appendFirstMatch t rn key x
      return (r :: t2)

/-- `r["cities"].remove(city)`, reached only under the guard
`city in r.get("cities", [])`, so the key exists, is a list and contains the
city; `list.remove` deletes the first occurrence. -/
def removeFromCities (r city : JVal) : Py JVal :=
  match r with
  | .obj kvs =>
    match JVal.lookup kvs "cities" with
    | some (.arr xs) => .ok (.obj (assocSet kvs "cities" (.arr (xs.erase city))))
    | some _ => .error .attributeErr
    | none => .error .keyErr
  | _ => .error .typeErr

/-- First `transfer_city` loop (no break): every region named `fr` whose
cities list contains the city has the first occurrence removed.  The `and`
is short-circuited as in Python: the membership test only runs on a name
match. -/
def removeCityLoop : List JVal → JVal → JVal → Py (List JVal)
  | [], _, _ => .ok []
  | r :: t, fr, city => do
    let nm ← pyIndex r "name"
    let hit ←
      if nm = fr then do
        let cl ← r.get "cities" (.arr [])
        pyIn city cl
      else pure false
    let r2 ← if hit then removeFromCities r city else pure r
    let t2 ← removeCityLoop t fr city
    return (r2 :: t2)

/-- Second `transfer_city` loop (no break): append the city name to every
region named `to`. -/
def appendAllLoop : List JVal → JVal → JVal → Py (List JVal)
  | [], _, _ => .ok []
  | r :: t, toR, city => do
    let nm ← pyIndex r "name"
    let r2 ← if nm = toR then setdefaultAppend r "cities" city else pure r
    let t2 ← appendAllLoop t toR city
    return (r2 :: t2)

/-- `d[k]` with an arbitrary (evaluated) key against an arbitrary value. -/
def pyGetItem (d k : JVal) : Py JVal :=
  match d with
  | .obj kvs => pyDictGet kvs k
  | _ => .error .typeErr

/-- `d[k] = v` with an arbitrary key.  A non-string hashable key cannot occur
under any claim (Python would accept it, but it is not representable in a
JSON object; mapped to `TypeError` here and never reached by the theorems). -/
def pyDictSetJ (d k v : JVal) : Py JVal :=
  match d with
  | .obj kvs =>
    match k with
    | .str s => .ok (.obj (assocSet kvs s v))
    | _ => .error .typeErr
  | _ => .error .typeErr

/-- `d[k] = v` with a string-literal key. -/
def pySetKey (d : JVal) (k : String) (v : JVal) : Py JVal :=
  match d with
  | .obj kvs => .ok (.obj (assocSet kvs k v))
  | _ => .error .typeErr

/-- The `{"ok": True, "world": world}` result. -/
def okResult (world : JVal) : JVal := .obj [("ok", .bool true), ("world", world)]

/-- The `{"ok": False, "error": ..., "details": ...}` result `apply_update`
builds from a caught `ValidationErrorDetail`. -/
def errResult (msg : String) (details : Option String) : JVal :=
  .obj [("ok", .bool false), ("error", .str msg),
    ("details", (details.map JVal.str).getD .null)]

/-- `apply_update(world, update_payload, snapshot=True)` from
world_engine.py.  `sid`/`now` are the uuid and clock values
`create_snapshot` would draw if a snapshot is written.  Returns
(python return value, final world, final snapshot state); a raised exception
other than the caught `ValidationErrorDetail` is an `.error`. -/
def apply_update (world update_payload : JVal) (snapshot : Bool)
    (sid now : String) (st : SnapState) : Py (JVal × JVal × SnapState) := do
  -- lines 140-143: validate first, converting ValidationErrorDetail only
  match validate_update world update_payload with
  | .error (.validationErr m d) => return (errResult m d, world, st)
  | .error e => throw e
  | .ok _ => pure ()
  let op ← update_payload.get "op"
  -- lines 146-159: add_city
  if op = .str "add_city" then
    let region_name ← pyIndex update_payload "region"
    let city ← pyIndex update_payload "city"
    let citiesJ ← pyIndex world "cities"
    let cname ← pyIndex city "name"
    let citiesJ2 ← pyDictSetJ citiesJ cname city
    let world1 ← pySetKey world "cities" citiesJ2
    let regionsJ ← pyIndex world1 "regions"
    let regionsL ← asList regionsJ
    let regionsL2 ← appendFirstMatch regionsL region_name "cities" cname
    let world2 ← pySetKey world1 "regions" (.arr regionsL2)
    let st2 := if snapshot then
        (create_snapshot world2 (some ("add_city:" ++ cname.pyStr)) sid now st).2
      else st
    return (okResult world2, world2, st2)
  -- lines 161-170: add_resource
  if op = .str "add_resource" then
    let region_name ← pyIndex update_payload "region"
    let resource ← pyIndex update_payload "resource"
    let regionsJ ← pyIndex world "regions"
    let regionsL ← asList regionsJ
    let regionsL2 ← appendFirstMatch regionsL region_name "resources" resource
    let world1 ← pySetKey world "regions" (.arr regionsL2)
    let st2 := if snapshot then
        (create_snapshot world1
          (some ("add_resource:" ++ resource.pyStr ++ "@" ++ region_name.pyStr)) sid now st).2
      else st
    return (okResult world1, world1, st2)
  -- lines 172-185: transfer_city
  if op = .str "transfer_city" then
    let city ← pyIndex update_payload "city"
    let from_region ← pyIndex update_payload "from"
    let to_region ← pyIndex update_payload "to"
    let regionsJ ← pyIndex world "regions"
    let regionsL ← asList regionsJ
    let regionsL2 ← removeCityLoop regionsL from_region city
    let regionsL3 ← appendAllLoop regionsL2 to_region city
    let world1 ← pySetKey world "regions" (.arr regionsL3)
    let st2 := if snapshot then
        (create_snapshot world1
          (some ("transfer_city:" ++ city.pyStr ++ ":" ++ from_region.pyStr ++ "->" ++
            to_region.pyStr)) sid now st).2
      else st
    return (okResult world1, world1, st2)
  -- lines 187-194: set_population
  if op = .str "set_population" then
    let city ← pyIndex update_payload "city"
    let population ← pyIndex update_payload "population"
    let citiesJ ← pyIndex world "cities"
    let inC ← pyIn city citiesJ
    if inC then
      let cityRec ← pyGetItem citiesJ city
      let cityRec2 ← pySetKey cityRec "population" population
      let citiesJ2 ← pyDictSetJ citiesJ city cityRec2
      let world1 ← pySetKey world "cities" citiesJ2
      let st2 := if snapshot then
          (create_snapshot world1
            (some ("set_pop:" ++ city.pyStr ++ ":" ++ population.pyStr)) sid now st).2
        else st
      return (okResult world1, world1, st2)
  -- lines 196-197: fallback
  return (.obj [("ok", .bool false),
    ("error", .str "Unsupported op after validation (unexpected)")], world, st)

/-- One inner iteration of `generate_world`'s synthetic branch (the body of
`for j in range(cities_per_region)` for region `i`): create the city dict,
insert it into the city mapping, and append its name to
`regions[rname]["cities"]`.  The two `match` defaults are unreachable: the
region was inserted just before the loop with a list under `"cities"`. -/
def genCityStep (randint : Nat → Int) (cities_per_region i : Nat) (rname : String)
    (acc : List (String × JVal) × List (String × JVal)) (j : Nat) :
    List (String × JVal) × List (String × JVal) :=
  let cname := "City_" ++ toString (i + 1) ++ "_" ++ toString (j + 1)
  let cobj : JVal := .obj [("name", .str cname),
    ("population", .int (randint (i * cities_per_region + j))), ("attributes", .obj [])]
  let cities2 := assocSet acc.2 cname cobj
  let regions2 :=
    match JVal.lookup acc.1 rname with
    | some (.obj rkvs) =>
      match JVal.lookup rkvs "cities" with
      | some (.arr xs) =>
        assocSet acc.1 rname (.obj (assocSet rkvs "cities" (.arr (xs ++ [.str cname]))))
      | _ => acc.1
    | _ => acc.1
  (regions2, cities2)

/-- One outer iteration of `generate_world`'s synthetic branch (the body of
`for i in range(regions_count)`): create region `Region_{i+1}` with 2 sampled
resources and an empty city list, then run the inner city loop. -/
def genRegionStep (sample : Nat → List String) (randint : Nat → Int)
    (cities_per_region : Nat)
    (acc : List (String × JVal) × List (String × JVal)) (i : Nat) :
    List (String × JVal) × List (String × JVal) :=
  let rname := "Region_" ++ toString (i + 1)
  let r0 : JVal := .obj [("name", .str rname), ("cities", .arr []),
    ("resources", .arr ((sample i).map JVal.str))]
  (List.range cities_per_region).foldl
    (genCityStep randint cities_per_region i rname) (assocSet acc.1 rname r0, acc.2)

/-- `generate_world(name, regions_count, cities_per_region)` from
world_engine.py, specialized to `_load_cities_csv() == []` (no
`data/cities.csv` is present), which is the situation every claim addresses —
the code then takes the synthetic `else` branch.  `sample i` is the result of
the `random.sample(resource_pool, k=2)` call for region `i`; `randint k` the
result of the `k`-th `random.randint(500, 50000)` call; `nowGen`/`nowCreated`
the two `datetime.utcnow().isoformat()` reads; `sid`/`snapNow` the uuid and
clock value consumed by `create_snapshot`.  Returns the world dict (with
`metadata.initial_snapshot` recorded) and the snapshot state. -/
def generate_world (name : String) (regions_count cities_per_region : Nat)
    (sample : Nat → List String) (randint : Nat → Int)
    (nowGen nowCreated : String) (sid snapNow : String) (st : SnapState) :
    JVal × SnapState :=
  let rc := (List.range regions_count).foldl
    (genRegionStep sample randint cities_per_region) ([], [])
  let world : JVal := .obj [("name", .str name),
    ("regions", .arr (rc.1.map (fun p => p.2))),
    ("cities", .obj rc.2),
    ("metadata", .obj [("generated_at", .str (nowGen ++ "Z"))]),
    ("created_at", .str (nowCreated ++ "Z"))]
  let snap := create_snapshot world (some ("initial-" ++ name)) sid snapNow st
  -- world["metadata"]["initial_snapshot"] = snap_id (after the snapshot was
  -- persisted, so the persisted copy does not carry the id)
  let world2 : JVal :=
    match world with
    | .obj wkvs =>
      match JVal.lookup wkvs "metadata" with
      | some (.obj mkvs) =>
        .obj (assocSet wkvs "metadata" (.obj (assocSet mkvs "initial_snapshot" (.str snap.1))))
      | _ => world
    | _ => world
  (world2, snap.2)

/-- `list(cities.keys())`: `AttributeError` when the receiver has no
`.keys()`. -/
def dictKeys : JVal → Py (List JVal)
  | .obj kvs => .ok (kvs.map fun p => JVal.str p.1)
  | _ => .error .attributeErr

/-- The name extraction of the comprehension `[r["name"] for r in regions]`. -/
def regionNamesLoop : List JVal → Py (List JVal)
  | [] => .ok []
  | r :: t => do
    let nm ← pyIndex r "name"
    let rest ← regionNamesLoop t
    .ok (nm :: rest)

/-- The comprehension `[r["name"] for r in regions]`. -/
def regionNames (regions : JVal) : Py (List JVal) := do
  let rs ← asList regions
  regionNamesLoop rs

/-- `suggest_event(world)` from world_engine.py.  `tsel` selects which of the
four templates `random.choice(templates)` picks (taken mod 4); `pick k` is
the index drawn by the `k`-th `random.choice` call inside the chosen template
(`random.choice(seq)` evaluates to `seq[i % len(seq)]`, raising `IndexError`
on an empty sequence); `now` is the `isoformat()` clock read.  The function
reads the world and returns an event — it touches no store. -/
def suggest_event (world : JVal) (tsel : Nat) (pick : Nat → Nat) (now : String) :
    Py JVal := do
  let regions ← world.get "regions" (.arr [])
  let cities ← world.get "cities" (.obj [])
  if !regions.truthy then
    return .obj [("event", .str "No regions to generate events for.")]
  let event ←
    match tsel % 4 with
    | 0 => do
      let ks ← dictKeys cities
      let c ← pyChoice ks (pick 0)
      let res ← pyChoice ["coal", "gold", "salt", "spice"] (pick 1)
      pure (JVal.obj [("type", .str "discover_resource"),
        ("text", .str ("City " ++ c.pyStr ++ " discovers a deposit of " ++ res ++ "."))])
    | 1 => do
      let nms ← regionNames regions
      let r ← pyChoice nms (pick 0)
      pure (JVal.obj [("type", .str "drought"),
        ("text", .str ("Region " ++ r.pyStr ++ " suffers a drought."))])
    | 2 => do
      let nms ← regionNames regions
      let r1 ← pyChoice nms (pick 0)
      let nms2 ← regionNames regions
      let r2 ← pyChoice nms2 (pick 1)
      pure (JVal.obj [("type", .str "trade_route"),
        ("text", .str ("Trade route opens between " ++ r1.pyStr ++ " and " ++ r2.pyStr ++ "."))])
    | _ => do
      let ks ← dictKeys cities
      let c ← pyChoice ks (pick 0)
      pure (JVal.obj [("type", .str "population_boost"),
        ("text", .str ("City " ++ c.pyStr ++ " experiences an unexpected population growth."))])
  -- event["timestamp"] = datetime.utcnow().isoformat() + "Z"
  match event with
  | .obj ekvs => return .obj (assocSet ekvs "timestamp" (.str (now ++ "Z")))
  | _ => return event

/-! ## Basic lemmas about the dict model -/

@[simp] theorem exceptBind_ok {ε α β : Type} (a : α) (f : α → Except ε β) :
    (Except.ok a : Except ε α) >>= f = f a := rfl

@[simp] theorem exceptBind_error {ε α β : Type} (e : ε) (f : α → Except ε β) :
    (Except.error e : Except ε α) >>= f = .error e := rfl

@[simp] theorem exceptMap_ok {ε α β : Type} (f : α → β) (a : α) :
    Except.map f (Except.ok a : Except ε α) = .ok (f a) := rfl

@[simp] theorem exceptMap_error {ε α β : Type} (f : α → β) (e : ε) :
    Except.map f (Except.error e : Except ε α) = .error e := rfl

theorem lookup_assocSet (kvs : List (String × JVal)) (k : String) (v : JVal) (k2 : String) :
    JVal.lookup (assocSet kvs k v) k2 = if k2 = k then some v else JVal.lookup kvs k2 := by
  induction kvs with
  | nil =>
    by_cases h : k2 = k
    · subst h; simp [assocSet, JVal.lookup]
    · have h2 : ¬(k = k2) := fun hc => h hc.symm
      simp [assocSet, JVal.lookup, h, h2]
  | cons p t ih =>
    obtain ⟨a, b⟩ := p
    by_cases hak : a = k
    · subst hak
      by_cases h2 : a = k2
      · subst h2; simp [assocSet, JVal.lookup]
      · have h3 : ¬(k2 = a) := fun hc => h2 hc.symm
        simp [assocSet, JVal.lookup, h2, h3]
    · by_cases h2 : a = k2
      · subst h2
        simp [assocSet, JVal.lookup, hak]
      · have h3 : ¬(k2 = a) := fun hc => h2 hc.symm
        simp [assocSet, JVal.lookup, hak, h2, h3, ih]

theorem storeLookup_storeSet (s : Store) (k : String) (v : Option JVal) (k2 : String) :
    storeLookup (storeSet s k v) k2 = if k2 = k then some v else storeLookup s k2 := by
  induction s with
  | nil =>
    by_cases h : k2 = k
    · subst h; simp [storeSet, storeLookup]
    · have h2 : ¬(k = k2) := fun hc => h hc.symm
      simp [storeSet, storeLookup, h, h2]
  | cons p t ih =>
    obtain ⟨a, b⟩ := p
    by_cases hak : a = k
    · subst hak
      by_cases h2 : a = k2
      · subst h2; simp [storeSet, storeLookup]
      · have h3 : ¬(k2 = a) := fun hc => h2 hc.symm
        simp [storeSet, storeLookup, h2, h3]
    · by_cases h2 : a = k2
      · subst h2
        simp [storeSet, storeLookup, hak]
      · have h3 : ¬(k2 = a) := fun hc => h2 hc.symm
        simp [storeSet, storeLookup, hak, h2, h3, ih]

/-! ## Parse/serialize round trip -/

theorem parseStrList_map (xs : List String) :
    parseStrList (xs.map JVal.str) = .ok xs := by
  induction xs with
  | nil => rfl
  | cons x t ih => simp [parseStrList, ih]

theorem parseCity_toJVal (c : City) : parseCity c.toJVal = .ok c := by
  cases c
  simp [parseCity, City.toJVal, JVal.lookup]

theorem parseRegion_toJVal (r : Region) : parseRegion r.toJVal = .ok r := by
  cases r
  simp [parseRegion, Region.toJVal, JVal.lookup, parseStrListField, parseStrList_map]

theorem parseCityMap_map (cs : List (String × City)) :
    parseCityMap (cityMapToJVal cs) = .ok cs := by
  induction cs with
  | nil => rfl
  | cons p t ih =>
    simp [cityMapToJVal] at ih
    simp [parseCityMap, cityMapToJVal, parseCity_toJVal, ih]

theorem parseRegionList_map (rs : List Region) :
    parseRegionList (rs.map Region.toJVal) = .ok rs := by
  induction rs with
  | nil => rfl
  | cons r t ih => simp [parseRegionList, parseRegion_toJVal, ih]

theorem parseWorld_toJVal (w : World) : parseWorld w.toJVal = .ok w := by
  obtain ⟨nm, rs, cs, md, ca⟩ := w
  cases ca with
  | none =>
    simp [parseWorld, World.toJVal, JVal.lookup, parseRegionsField, parseRegionList_map,
      parseCitiesField, parseCityMap_map, parseMetadataField, parseCreatedAtField]
  | some s =>
    simp [parseWorld, World.toJVal, JVal.lookup, parseRegionsField, parseRegionList_map,
      parseCitiesField, parseCityMap_map, parseMetadataField, parseCreatedAtField]

@[simp] theorem exceptPure_eq_ok {ε α : Type} (a : α) :
    (pure a : Except ε α) = .ok a := rfl

instance exceptDecEq {ε α : Type} [DecidableEq ε] [DecidableEq α] :
    DecidableEq (Except ε α) := fun x y =>
  match x, y with
  | .ok a, .ok b =>
    if h : a = b then isTrue (by rw [h]) else isFalse (fun hc => by cases hc; exact h rfl)
  | .error a, .error b =>
    if h : a = b then isTrue (by rw [h]) else isFalse (fun hc => by cases hc; exact h rfl)
  | .ok _, .error _ => isFalse (fun hc => Except.noConfusion hc)
  | .error _, .ok _ => isFalse (fun hc => Except.noConfusion hc)

/-! ## Claim C7: load after create is a round trip -/

/-- Claim C7: for every world document, loading the snapshot id returned by
`create_snapshot` returns a world deeply equal to the original (the snapshot
payload is written under the returned id, and `load_snapshot` projects its
`world` field; `json.dumps`/`json.loads` is the identity on JSON values). -/
theorem C7_load_create_roundtrip (world : JVal) (tag : Option String)
    (sid now : String) (st : SnapState) :
    load_snapshot (create_snapshot world tag sid now st).1
      (create_snapshot world tag sid now st).2.store = .ok world := by
  simp [create_snapshot, load_snapshot, storeLookup_storeSet, pyIndex, JVal.lookup]

/-! ## Claim C2: rejected updates change nothing -/

/-- Claim C2: whenever the validator rejects an update (raises
`ValidationErrorDetail m d`), `apply_update` with `snapshot=True` returns the
`{ok: False, error, details}` failure shape, hands back the world value
unchanged, and leaves the snapshot state (store and creation log) untouched. -/
theorem C2_rejected_update_unchanged (world u : JVal) (m : String) (d : Option String)
    (sid now : String) (st : SnapState)
    (hrej : validate_update world u = .error (.validationErr m d)) :
    apply_update world u true sid now st = .ok (errResult m d, world, st) := by
  simp [apply_update, hrej]

/-- Witness for C2 at a concrete input: an update with an unknown op is
rejected and `apply_update` returns the failure triple with the world and
store untouched. -/
theorem C2_witness :
    validate_update (World.toJVal ⟨"W", [⟨"R", ["C"], []⟩], [("C", ⟨"C", 10, []⟩)], [], none⟩)
        (.obj [("op", .str "bogus")]) =
      .error (.validationErr "Unknown operation: bogus" none) ∧
    apply_update (World.toJVal ⟨"W", [⟨"R", ["C"], []⟩], [("C", ⟨"C", 10, []⟩)], [], none⟩)
        (.obj [("op", .str "bogus")]) true "sid" "now" ⟨[], []⟩ =
      .ok (errResult "Unknown operation: bogus" none,
        World.toJVal ⟨"W", [⟨"R", ["C"], []⟩], [("C", ⟨"C", 10, []⟩)], [], none⟩, ⟨[], []⟩) := by
  constructor
  · decide
  · exact C2_rejected_update_unchanged _ _ _ _ _ _ _ (by decide)

/-! ## The validator's helper dict on canonical worlds -/

/-- The value of `{r["name"]: r for r in regions}` on a canonical world:
a left fold with dict update (later duplicates overwrite earlier ones). -/
def regionsDict (rs : List Region) : List (String × JVal) :=
  rs.foldl (fun a r => assocSet a r.name r.toJVal) []

/-- Structured lookup in a world's city mapping. -/
def cityLookup : List (String × City) → String → Option City
  | [], _ => none
  | (a, c) :: t, k => if a = k then some c else cityLookup t k

/-- A world has a dangling reference when some region's cities list holds a
name that is not a key of the world's city mapping (spec §3 invariant). -/
def hasDanglingRef (w : World) : Bool :=
  w.regions.any fun r => r.cities.any fun cn => (cityLookup w.cities cn).isNone

@[simp] theorem get_obj (kvs : List (String × JVal)) (k : String) (d : JVal) :
    JVal.get (.obj kvs) k d = .ok ((JVal.lookup kvs k).getD d) := rfl

@[simp] theorem pyIndex_obj (kvs : List (String × JVal)) (k : String) :
    pyIndex (.obj kvs) k =
      (match JVal.lookup kvs k with
       | some x => .ok x
       | none => .error .keyErr) := rfl

@[simp] theorem asList_arr (xs : List JVal) : asList (.arr xs) = .ok xs := rfl

@[simp] theorem pyIndex_toJVal_name (r : Region) :
    pyIndex r.toJVal "name" = .ok (.str r.name) := by
  simp [Region.toJVal, JVal.lookup]

theorem toJVal_get_regions (w : World) (d : JVal) :
    JVal.get w.toJVal "regions" d = .ok (.arr (w.regions.map Region.toJVal)) := by
  simp [World.toJVal, JVal.lookup]

theorem toJVal_get_cities (w : World) (d : JVal) :
    JVal.get w.toJVal "cities" d = .ok (.obj (cityMapToJVal w.cities)) := by
  simp [World.toJVal, JVal.lookup]

theorem regionsDictLoop_map (rs : List Region) (acc : List (String × JVal)) :
    regionsDictLoop (rs.map Region.toJVal) acc =
      .ok (rs.foldl (fun a r => assocSet a r.name r.toJVal) acc) := by
  induction rs generalizing acc with
  | nil => rfl
  | cons r t ih => simp [regionsDictLoop, ih]

theorem regionsDictOf_map (rs : List Region) :
    regionsDictOf (rs.map Region.toJVal) = .ok (regionsDict rs) := by
  simp [regionsDictOf, regionsDictLoop_map, regionsDict]

theorem lookup_regionsFold (rs : List Region) (acc : List (String × JVal)) (k : String) :
    JVal.lookup (rs.foldl (fun a r => assocSet a r.name r.toJVal) acc) k =
      (match rs.reverse.find? (fun r => r.name == k) with
       | some r => some r.toJVal
       | none => JVal.lookup acc k) := by
  induction rs generalizing acc with
  | nil => rfl
  | cons r t ih =>
    simp only [List.foldl_cons, ih, List.reverse_cons, List.find?_append]
    cases hf : t.reverse.find? (fun r => r.name == k) with
    | some r2 => simp [Option.or]
    | none =>
      by_cases hk : r.name = k
      · subst hk
        simp [Option.or, List.find?, lookup_assocSet]
      · have hk2 : ¬(k = r.name) := fun hc => hk hc.symm
        have hkb : (r.name == k) = false := by simp [hk]
        simp [Option.or, List.find?, hkb, hk2, lookup_assocSet]

theorem lookup_regionsDict (rs : List Region) (k : String) :
    JVal.lookup (regionsDict rs) k =
      (rs.reverse.find? (fun r => r.name == k)).map Region.toJVal := by
  simp only [regionsDict, lookup_regionsFold]
  cases rs.reverse.find? (fun r => r.name == k) <;> simp [JVal.lookup]

theorem lookup_regionsDict_isSome (rs : List Region) (k : String) :
    (JVal.lookup (regionsDict rs) k).isSome = rs.any (fun r => r.name == k) := by
  rw [lookup_regionsDict]
  cases hf : rs.reverse.find? (fun r => r.name == k) with
  | some r =>
    have := List.find?_some hf
    have hm := List.mem_of_find?_eq_some hf
    simp at hm ⊢
    exact ⟨r, hm, by simpa using this⟩
  | none =>
    have := List.find?_eq_none.mp hf
    simp at this ⊢
    intro r hr
    exact this r (by simpa using hr)

theorem findRev_eq_find_of_nodup (rs : List Region) (k : String)
    (hnd : (rs.map Region.name).Nodup) :
    rs.reverse.find? (fun r => r.name == k) = rs.find? (fun r => r.name == k) := by
  induction rs with
  | nil => rfl
  | cons r t ih =>
    simp only [List.map_cons, List.nodup_cons] at hnd
    obtain ⟨hnotin, hnd2⟩ := hnd
    simp only [List.reverse_cons, List.find?_append, ih hnd2]
    by_cases hp : r.name = k
    · subst hp
      have ht : t.find? (fun r2 => r2.name == r.name) = none := by
        rw [List.find?_eq_none]
        intro x hx hbe
        have hxr : x.name = r.name := by simpa using hbe
        apply hnotin
        rw [List.mem_map]
        exact ⟨x, hx, hxr⟩
      simp [ht, Option.or, List.find?]
    · have hpb : (r.name == k) = false := by simp [hp]
      cases hf : t.find? (fun r2 => r2.name == k) with
      | some r2 => simp [Option.or, List.find?, hpb, hf]
      | none => simp [Option.or, List.find?, hpb, hf]

@[simp] theorem exceptThrow_eq_error {ε α : Type} (e : ε) :
    (throw e : Except ε α) = .error e := rfl

/-! ## add_city: validator acceptance and engine effect on canonical worlds -/

/-- The raw `add_city` update payload. -/
def addCityPayload (rn : String) (cv : JVal) : JVal :=
  .obj [("op", .str "add_city"), ("region", .str rn), ("city", cv)]

/-- Does a (possibly absent) `population` entry pass the validator's
`city_obj.get("population", 0) < 0` check without raising?  Absent means the
default `0`; a bool is a Python int and never `< 0`. -/
def popPasses : Option JVal → Bool
  | none => true
  | some (.int n) => decide (0 ≤ n)
  | some (.bool _) => true
  | some _ => false

theorem ltZero_of_popPasses (p : Option JVal) (hp : popPasses p = true) :
    (p.getD (.int 0)).ltZero = .ok false := by
  match p with
  | none => rfl
  | some (.int n) =>
    simp [popPasses] at hp
    simp [JVal.ltZero, Option.getD]
    omega
  | some (.bool b) => rfl
  | some .null | some (.str _) | some (.arr _) | some (.obj _) => simp [popPasses] at hp

/-- The validator accepts every `add_city` update whose op-specific checks
pass — whatever dangling references the world's regions may contain: the
region name is non-empty and names a region, the city object carries a
string name that is not a key of the city mapping, and its population
entry (if any) is a non-negative int.  (validator.py lines 43-54.) -/
theorem validate_addCity_ok (w : World) (rn : String) (ckvs : List (String × JVal))
    (cn : String)
    (hrn : rn ≠ "")
    (hreg : w.regions.any (fun r => r.name == rn) = true)
    (hname : JVal.lookup ckvs "name" = some (.str cn))
    (hfresh : JVal.lookup (cityMapToJVal w.cities) cn = none)
    (hpop : popPasses (JVal.lookup ckvs "population") = true) :
    validate_update w.toJVal (addCityPayload rn (.obj ckvs)) = .ok validTrue := by
  have hckvs : ckvs ≠ [] := by
    intro h; rw [h] at hname; simp [JVal.lookup] at hname
  have htr : (JVal.obj ckvs).truthy = true := by
    cases ckvs with
    | nil => exact absurd rfl hckvs
    | cons a t => simp [JVal.truthy]
  have hmem : (JVal.lookup (regionsDict w.regions) rn).isSome = true := by
    rw [lookup_regionsDict_isSome]; exact hreg
  have hnn : ¬(JVal.lookup (regionsDict w.regions) rn = none) := by
    intro h; rw [h] at hmem; simp at hmem
  simp [validate_update, addCityPayload, parseWorld_toJVal, toJVal_get_regions,
    toJVal_get_cities, asList_arr, regionsDictOf_map, JVal.lookup, JVal.truthy,
    hrn, htr, hckvs, hnn, hname, hfresh, keyMem, pyIn,
    ltZero_of_popPasses _ hpop]

/-- Effect of the `add_city` mutation loop on canonical regions: the first
region with the given name gets the city name appended to its list. -/
def updateFirstRegion : List Region → String → String → List Region
  | [], _, _ => []
  | r :: t, rn, cn =>
    if r.name = rn then { r with cities := r.cities ++ [cn] } :: t
    else r :: updateFirstRegion t rn cn

/-- First region with a given name (the region `apply_update`'s first-match
loop touches). -/
def firstRegionNamed : List Region → String → Option Region
  | [], _ => none
  | r :: t, rn => if r.name = rn then some r else firstRegionNamed t rn

theorem setdefaultAppend_toJVal (r : Region) (cn : String) :
    setdefaultAppend r.toJVal "cities" (.str cn) =
      .ok (Region.toJVal { r with cities := r.cities ++ [cn] }) := by
  simp [setdefaultAppend, Region.toJVal, JVal.lookup, assocSet]

theorem appendFirstMatch_cities_map (rs : List Region) (rn cn : String) :
    appendFirstMatch (rs.map Region.toJVal) (.str rn) "cities" (.str cn) =
      .ok ((updateFirstRegion rs rn cn).map Region.toJVal) := by
  induction rs with
  | nil => rfl
  | cons r t ih =>
    by_cases h : r.name = rn
    · simp [appendFirstMatch, updateFirstRegion, h, setdefaultAppend_toJVal]
    · have hb : ¬(JVal.str r.name = JVal.str rn) := by
        intro hc; cases hc; exact h rfl
      simp [appendFirstMatch, updateFirstRegion, h, hb, ih]

/-- The raw world value produced by a successful `add_city` application on a
canonical world: the raw city object is stored under its name in the city
mapping, and the first region with the given name gets the name appended. -/
def addCityRawResult (w : World) (rn cn : String) (cv : JVal) : JVal :=
  .obj [("name", .str w.name),
        ("regions", .arr ((updateFirstRegion w.regions rn cn).map Region.toJVal)),
        ("cities", .obj (assocSet (cityMapToJVal w.cities) cn cv)),
        ("metadata", .obj w.metadata),
        ("created_at", (w.created_at.map JVal.str).getD .null)]

/-- Full effect of `apply_update` on an accepted `add_city` update against a
canonical world (world_engine.py lines 146-159): the result is
`{ok: True, world}` with the mutated world, and exactly one snapshot tagged
`add_city:<name>` is created when `snapshot` is on, none otherwise. -/
theorem apply_addCity (w : World) (rn : String) (ckvs : List (String × JVal))
    (cn : String) (snap : Bool) (sid now : String) (st : SnapState)
    (hrn : rn ≠ "")
    (hreg : w.regions.any (fun r => r.name == rn) = true)
    (hname : JVal.lookup ckvs "name" = some (.str cn))
    (hfresh : JVal.lookup (cityMapToJVal w.cities) cn = none)
    (hpop : popPasses (JVal.lookup ckvs "population") = true) :
    apply_update w.toJVal (addCityPayload rn (.obj ckvs)) snap sid now st =
      .ok (okResult (addCityRawResult w rn cn (.obj ckvs)),
        addCityRawResult w rn cn (.obj ckvs),
        if snap then
          (create_snapshot (addCityRawResult w rn cn (.obj ckvs))
            (some ("add_city:" ++ cn)) sid now st).2
        else st) := by
  have hval := validate_addCity_ok w rn ckvs cn hrn hreg hname hfresh hpop
  have hval2 : validate_update
      (JVal.obj [("name", .str w.name), ("regions", .arr (w.regions.map Region.toJVal)),
        ("cities", .obj (cityMapToJVal w.cities)), ("metadata", .obj w.metadata),
        ("created_at", (w.created_at.map JVal.str).getD .null)])
      (JVal.obj [("op", .str "add_city"), ("region", .str rn), ("city", .obj ckvs)]) =
      .ok validTrue := by
    have h2 := hval
    simp only [World.toJVal, addCityPayload] at h2
    exact h2
  simp [apply_update, hval2, addCityPayload, World.toJVal, JVal.lookup, hname,
    pyDictSetJ, pySetKey, assocSet, appendFirstMatch_cities_map, JVal.pyStr,
    addCityRawResult]

/-! ## Raw-world accessors used to state the add_city claims -/

/-- The city mapping of a raw world value. -/
def worldCitiesOf (w : JVal) : List (String × JVal) :=
  match w with
  | .obj kvs =>
    match JVal.lookup kvs "cities" with
    | some (.obj c) => c
    | _ => []
  | _ => []

/-- The regions list of a raw world value. -/
def worldRegionsOf (w : JVal) : List JVal :=
  match w with
  | .obj kvs =>
    match JVal.lookup kvs "regions" with
    | some (.arr xs) => xs
    | _ => []
  | _ => []

/-- The cities list of the first region with the given name in a raw regions
list (an absent `cities` key reads as the empty list). -/
def rawFirstRegionCities : List JVal → String → Option (List JVal)
  | [], _ => none
  | r :: t, rn =>
    match r with
    | .obj kvs =>
      if JVal.lookup kvs "name" = some (.str rn) then
        match JVal.lookup kvs "cities" with
        | some (.arr xs) => some xs
        | _ => some []
      else rawFirstRegionCities t rn
    | _ => rawFirstRegionCities t rn

theorem firstRegionNamed_any (rs : List Region) (rn : String) (r0 : Region)
    (h : firstRegionNamed rs rn = some r0) :
    rs.any (fun r => r.name == rn) = true := by
  induction rs with
  | nil => simp [firstRegionNamed] at h
  | cons r t ih =>
    by_cases hn : r.name = rn
    · simp [hn]
    · simp [firstRegionNamed, hn] at h
      simp [List.any_cons, ih h]

theorem rawFirstRegionCities_map (rs : List Region) (rn : String) :
    rawFirstRegionCities (rs.map Region.toJVal) rn =
      (firstRegionNamed rs rn).map (fun r => r.cities.map JVal.str) := by
  induction rs with
  | nil => rfl
  | cons r t ih =>
    by_cases hn : r.name = rn
    · subst hn
      simp [rawFirstRegionCities, firstRegionNamed, Region.toJVal, JVal.lookup]
    · have hb : ¬(some (JVal.str r.name) = some (JVal.str rn)) := by
        intro hc; injection hc with hc2; cases hc2; exact hn rfl
      simp [rawFirstRegionCities, firstRegionNamed, Region.toJVal, JVal.lookup, hn, hb, ih]

theorem firstRegionNamed_updateFirst (rs : List Region) (rn cn : String) :
    firstRegionNamed (updateFirstRegion rs rn cn) rn =
      (firstRegionNamed rs rn).map (fun r => { r with cities := r.cities ++ [cn] }) := by
  induction rs with
  | nil => rfl
  | cons r t ih =>
    by_cases hn : r.name = rn
    · simp [updateFirstRegion, firstRegionNamed, hn]
    · simp [updateFirstRegion, firstRegionNamed, hn, ih]

theorem JValStr_injective : Function.Injective JVal.str := by
  intro a b h; cases h; rfl

/-! ## Claim C1: does the validator reject dangling references? -/

/-- Counterexample to claim C1: this world has a dangling reference
("Ghost" sits in region "R"'s cities list but is no key of the city
mapping), yet `validate_update` accepts an `add_city` update instead of
failing — the validator never checks region→city referential integrity. -/
theorem C1_counterexample :
    hasDanglingRef ⟨"W", [⟨"R", ["Ghost"], []⟩], [], [], none⟩ = true ∧
    validate_update (World.toJVal ⟨"W", [⟨"R", ["Ghost"], []⟩], [], [], none⟩)
      (addCityPayload "R" (.obj [("name", .str "X"), ("population", .int 5)])) =
      .ok validTrue := by
  constructor
  · decide
  · decide

/-- Claim C1 (amended): the validator does not enforce the region→city
referential-integrity invariant.  For every world with a dangling reference
(and indeed any world), an `add_city` update whose op-specific checks pass is
accepted — `validate_update` returns `{"valid": True}` rather than failing. -/
theorem C1_theorem (w : World) (rn : String) (ckvs : List (String × JVal)) (cn : String)
    (_hdangling : hasDanglingRef w = true)
    (hrn : rn ≠ "")
    (hreg : w.regions.any (fun r => r.name == rn) = true)
    (hname : JVal.lookup ckvs "name" = some (.str cn))
    (hfresh : JVal.lookup (cityMapToJVal w.cities) cn = none)
    (hpop : popPasses (JVal.lookup ckvs "population") = true) :
    validate_update w.toJVal (addCityPayload rn (.obj ckvs)) = .ok validTrue :=
  validate_addCity_ok w rn ckvs cn hrn hreg hname hfresh hpop

/-- Witness for C1 (amended) at a concrete input. -/
theorem C1_witness :
    validate_update (World.toJVal ⟨"W", [⟨"N", ["Lost", "K"], []⟩], [("K", ⟨"K", 3, []⟩)], [], none⟩)
      (addCityPayload "N" (.obj [("name", .str "Y"), ("population", .int 2)])) =
      .ok validTrue :=
  C1_theorem ⟨"W", [⟨"N", ["Lost", "K"], []⟩], [("K", ⟨"K", 3, []⟩)], [], none⟩ "N"
    [("name", .str "Y"), ("population", .int 2)] "Y"
    (by decide) (by decide) (by decide) (by decide) (by decide) (by decide)

/-! ## Claim C3: effect of an accepted add_city -/

/-- Counterexample to claim C3 as stated: on a world whose region "R" already
holds the dangling name "X", the `add_city` update for a new city "X" is
accepted by the validator, but after `apply_update` region "R"'s cities list
contains "X" twice, not exactly once. -/
theorem C3_counterexample :
    validate_update (World.toJVal ⟨"W", [⟨"R", ["X"], []⟩], [], [], none⟩)
      (addCityPayload "R" (.obj [("name", .str "X"), ("population", .int 1)])) =
      .ok validTrue ∧
    (apply_update (World.toJVal ⟨"W", [⟨"R", ["X"], []⟩], [], [], none⟩)
        (addCityPayload "R" (.obj [("name", .str "X"), ("population", .int 1)]))
        true "sid" "now" ⟨[], []⟩).toOption.map
      (fun t => (rawFirstRegionCities (worldRegionsOf t.2.1) "R").map
        (fun l => l.count (.str "X"))) = some (some 2) := by
  constructor
  · decide
  · decide

/-- Claim C3 (amended): for every `add_city` update accepted by the
validator whose city object carries a string name, against a world where the
first region with the named region's name does not already list that name
(guaranteed whenever the world satisfies the referential-integrity
invariant), the world returned by `apply_update` has the city object under
its name in the city mapping and the named region's cities list contains the
name exactly once. -/
theorem C3_theorem (w : World) (rn : String) (ckvs : List (String × JVal)) (cn : String)
    (r0 : Region) (snap : Bool) (sid now : String) (st : SnapState)
    (hrn : rn ≠ "")
    (hfind : firstRegionNamed w.regions rn = some r0)
    (hnotin : cn ∉ r0.cities)
    (hname : JVal.lookup ckvs "name" = some (.str cn))
    (hfresh : JVal.lookup (cityMapToJVal w.cities) cn = none)
    (hpop : popPasses (JVal.lookup ckvs "population") = true) :
    validate_update w.toJVal (addCityPayload rn (.obj ckvs)) = .ok validTrue ∧
    ∃ w2 st2,
      apply_update w.toJVal (addCityPayload rn (.obj ckvs)) snap sid now st =
        .ok (okResult w2, w2, st2) ∧
      JVal.lookup (worldCitiesOf w2) cn = some (.obj ckvs) ∧
      ∃ cl, rawFirstRegionCities (worldRegionsOf w2) rn = some cl ∧
        cl.count (.str cn) = 1 := by
  have hreg := firstRegionNamed_any w.regions rn r0 hfind
  refine ⟨validate_addCity_ok w rn ckvs cn hrn hreg hname hfresh hpop, ?_⟩
  refine ⟨addCityRawResult w rn cn (.obj ckvs), _,
    apply_addCity w rn ckvs cn snap sid now st hrn hreg hname hfresh hpop, ?_, ?_⟩
  · simp [addCityRawResult, worldCitiesOf, JVal.lookup, lookup_assocSet]
  · refine ⟨(r0.cities ++ [cn]).map JVal.str, ?_, ?_⟩
    · simp [addCityRawResult, worldRegionsOf, JVal.lookup, rawFirstRegionCities_map,
        firstRegionNamed_updateFirst, hfind]
    · rw [List.count_map_of_injective _ JVal.str JValStr_injective]
      simp [List.count_append, List.count_eq_zero.mpr hnotin]

/-- Witness for C3 (amended) at a concrete input. -/
theorem C3_witness :
    validate_update (World.toJVal ⟨"W", [⟨"R", ["C"], []⟩], [("C", ⟨"C", 10, []⟩)], [], none⟩)
      (addCityPayload "R" (.obj [("name", .str "X"), ("population", .int 5)])) =
      .ok validTrue ∧
    ∃ w2 st2,
      apply_update (World.toJVal ⟨"W", [⟨"R", ["C"], []⟩], [("C", ⟨"C", 10, []⟩)], [], none⟩)
        (addCityPayload "R" (.obj [("name", .str "X"), ("population", .int 5)]))
        true "sid" "now" ⟨[], []⟩ = .ok (okResult w2, w2, st2) ∧
      JVal.lookup (worldCitiesOf w2) "X" =
        some (.obj [("name", .str "X"), ("population", .int 5)]) ∧
      ∃ cl, rawFirstRegionCities (worldRegionsOf w2) "R" = some cl ∧
        cl.count (.str "X") = 1 :=
  C3_theorem ⟨"W", [⟨"R", ["C"], []⟩], [("C", ⟨"C", 10, []⟩)], [], none⟩ "R"
    [("name", .str "X"), ("population", .int 5)] "X" ⟨"R", ["C"], []⟩
    true "sid" "now" ⟨[], []⟩
    (by decide) (by decide) (by decide) (by decide) (by decide) (by decide)

/-! ## Claim C10: add_city with an absent population corrupts the world -/

theorem assocSet_append_of_fresh (kvs : List (String × JVal)) (k : String) (v : JVal)
    (h : JVal.lookup kvs k = none) :
    assocSet kvs k v = kvs ++ [(k, v)] := by
  induction kvs with
  | nil => rfl
  | cons p t ih =>
    obtain ⟨a, b⟩ := p
    by_cases hak : a = k
    · subst hak; simp [JVal.lookup] at h
    · simp [JVal.lookup, hak] at h
      simp [assocSet, hak, ih h]

theorem parseCityMap_append_error (cs : List (String × City)) (cn : String) (v : JVal)
    (e : String) (h : parseCity v = .error e) :
    parseCityMap (cityMapToJVal cs ++ [(cn, v)]) = .error e := by
  induction cs with
  | nil => simp [parseCityMap, cityMapToJVal, h]
  | cons p t ih => simp [parseCityMap, cityMapToJVal, parseCity_toJVal, ih] at ih ⊢

/-- A city object that omits `population` does not parse under the Document
Model: `City.population` is a required field. -/
theorem parseCity_no_population (ckvs : List (String × JVal)) (cn : String)
    (hname : JVal.lookup ckvs "name" = some (.str cn))
    (hnopop : JVal.lookup ckvs "population" = none) :
    parseCity (.obj ckvs) = .error "population: field required" := by
  simp [parseCity, hname, hnopop]

/-- After an accepted `add_city` stored a population-less city object, the
resulting raw world no longer parses under the Document Model. -/
theorem parseWorld_addCityRawResult_error (w : World) (rn cn : String)
    (ckvs : List (String × JVal))
    (hname : JVal.lookup ckvs "name" = some (.str cn))
    (hnopop : JVal.lookup ckvs "population" = none)
    (hfresh : JVal.lookup (cityMapToJVal w.cities) cn = none) :
    parseWorld (addCityRawResult w rn cn (.obj ckvs)) =
      .error "population: field required" := by
  have hfail := parseCity_no_population ckvs cn hname hnopop
  simp [addCityRawResult, parseWorld, JVal.lookup, parseRegionsField, parseRegionList_map,
    parseCitiesField, assocSet_append_of_fresh _ _ _ hfresh,
    parseCityMap_append_error _ _ _ _ hfail]

/-- Claim C10: an `add_city` update whose city object has a string name but
omits `population` passes validation (the check reads the absent field as 0),
`apply_update` stores the city object as given, and from then on every
`validate_update` call on the resulting world fails with
"Current world data is invalid", because the stored city no longer parses
under the Document Model. -/
theorem C10_theorem (w : World) (rn : String) (ckvs : List (String × JVal)) (cn : String)
    (snap : Bool) (sid now : String) (st : SnapState)
    (hrn : rn ≠ "")
    (hreg : w.regions.any (fun r => r.name == rn) = true)
    (hname : JVal.lookup ckvs "name" = some (.str cn))
    (hfresh : JVal.lookup (cityMapToJVal w.cities) cn = none)
    (hnopop : JVal.lookup ckvs "population" = none) :
    validate_update w.toJVal (addCityPayload rn (.obj ckvs)) = .ok validTrue ∧
    ∃ w2 st2,
      apply_update w.toJVal (addCityPayload rn (.obj ckvs)) snap sid now st =
        .ok (okResult w2, w2, st2) ∧
      JVal.lookup (worldCitiesOf w2) cn = some (.obj ckvs) ∧
      ∀ u2 : JVal, ∃ d : String,
        validate_update w2 u2 = .error (.validationErr "Current world data is invalid" (some d)) := by
  have hpop : popPasses (JVal.lookup ckvs "population") = true := by
    rw [hnopop]; rfl
  refine ⟨validate_addCity_ok w rn ckvs cn hrn hreg hname hfresh hpop, ?_⟩
  refine ⟨addCityRawResult w rn cn (.obj ckvs), _,
    apply_addCity w rn ckvs cn snap sid now st hrn hreg hname hfresh hpop, ?_, ?_⟩
  · simp [addCityRawResult, worldCitiesOf, JVal.lookup, lookup_assocSet]
  · intro u2
    refine ⟨"population: field required", ?_⟩
    have hparse := parseWorld_addCityRawResult_error w rn cn ckvs hname hnopop hfresh
    simp [validate_update, hparse]

/-- Witness for C10 at a concrete input. -/
theorem C10_witness :
    validate_update (World.toJVal ⟨"W", [⟨"R", ["C"], []⟩], [("C", ⟨"C", 10, []⟩)], [], none⟩)
      (addCityPayload "R" (.obj [("name", .str "X")])) = .ok validTrue ∧
    ∃ w2 st2,
      apply_update (World.toJVal ⟨"W", [⟨"R", ["C"], []⟩], [("C", ⟨"C", 10, []⟩)], [], none⟩)
        (addCityPayload "R" (.obj [("name", .str "X")])) true "sid" "now" ⟨[], []⟩ =
        .ok (okResult w2, w2, st2) ∧
      JVal.lookup (worldCitiesOf w2) "X" = some (.obj [("name", .str "X")]) ∧
      ∀ u2 : JVal, ∃ d : String,
        validate_update w2 u2 = .error (.validationErr "Current world data is invalid" (some d)) :=
  C10_theorem ⟨"W", [⟨"R", ["C"], []⟩], [("C", ⟨"C", 10, []⟩)], [], none⟩ "R"
    [("name", .str "X")] "X" true "sid" "now" ⟨[], []⟩
    (by decide) (by decide) (by decide) (by decide) (by decide)

/-! ## Claim C4: non-ValidationError exceptions escape the validator -/

/-- Claim C4 fails on the code: on a well-formed world, an `add_city` update
whose `population` is the string "many" makes line 52's comparison
`city_obj.get("population", 0) < 0` raise `TypeError`, and an update whose
`city` field is the string "X" makes line 50's `city_obj.get("name")` raise
`AttributeError` — neither is the `ValidationErrorDetail` that the
validator's own docstring ("Return {"valid": True} or raise
ValidationErrorDetail") and the spec promise. -/
theorem C4_theorem :
    validate_update (World.toJVal ⟨"W", [⟨"R", [], []⟩], [], [], none⟩)
      (addCityPayload "R" (.obj [("name", .str "X"), ("population", .str "many")])) =
      .error .typeErr ∧
    validate_update (World.toJVal ⟨"W", [⟨"R", [], []⟩], [], [], none⟩)
      (.obj [("op", .str "add_city"), ("region", .str "R"), ("city", .str "X")]) =
      .error .attributeErr := by
  constructor
  · decide
  · decide

/-! ## Claim C5: generate with an empty dataset -/

/-- The `name` field of a raw region value. -/
def rawRegionName (r : JVal) : Option JVal :=
  match r with
  | .obj kvs => JVal.lookup kvs "name"
  | _ => none

/-- The number of cities a raw region value lists. -/
def rawRegionCityCount (r : JVal) : Nat :=
  match r with
  | .obj kvs =>
    match JVal.lookup kvs "cities" with
    | some (.arr xs) => xs.length
    | _ => 0
  | _ => 0

/-- The metadata mapping of a raw world value. -/
def worldMetaOf (w : JVal) : List (String × JVal) :=
  match w with
  | .obj kvs =>
    match JVal.lookup kvs "metadata" with
    | some (.obj m) => m
    | _ => []
  | _ => []

set_option maxHeartbeats 2000000 in
/-- Claim C5: `generate_world("W", 3, 2)` with no city dataset produces
exactly the regions `Region_1`, `Region_2`, `Region_3`, each listing exactly
2 cities, performs exactly one snapshot creation, tagged `initial-W`, and
records that snapshot's id under `metadata.initial_snapshot` — for every
random draw, uuid and clock reading. -/
theorem C5_theorem (sample : Nat → List String) (randint : Nat → Int)
    (nowGen nowCreated sid snapNow : String) (st : SnapState) :
    (worldRegionsOf (generate_world "W" 3 2 sample randint nowGen nowCreated
        sid snapNow st).1).map rawRegionName =
      [some (.str "Region_1"), some (.str "Region_2"), some (.str "Region_3")] ∧
    (worldRegionsOf (generate_world "W" 3 2 sample randint nowGen nowCreated
        sid snapNow st).1).map rawRegionCityCount = [2, 2, 2] ∧
    (generate_world "W" 3 2 sample randint nowGen nowCreated sid snapNow st).2.log =
      st.log ++ [(sid, "initial-W")] ∧
    JVal.lookup (worldMetaOf (generate_world "W" 3 2 sample randint nowGen nowCreated
        sid snapNow st).1) "initial_snapshot" = some (.str sid) :=
  ⟨rfl, rfl, rfl, rfl⟩

/-! ## Claim C6: effect of an accepted transfer_city -/

/-- The raw `transfer_city` update payload. -/
def transferPayload (cn fr toR : String) : JVal :=
  .obj [("op", .str "transfer_city"), ("city", .str cn), ("from", .str fr),
        ("to", .str toR)]

/-- Per-region effect of the first `transfer_city` loop: the first occurrence
of the city name is removed from every region with the source name that
lists it. -/
def transferRemoveStep (cn fr : String) (r : Region) : Region :=
  if r.name = fr ∧ cn ∈ r.cities then { r with cities := r.cities.erase cn } else r

/-- Per-region effect of the second `transfer_city` loop: the city name is
appended to every region with the destination name (even when nothing was
removed). -/
def transferAppendStep (cn toR : String) (r : Region) : Region :=
  if r.name = toR then { r with cities := r.cities ++ [cn] } else r

/-- Combined per-region effect of `transfer_city`'s two loops. -/
def transferStep (cn fr toR : String) (r : Region) : Region :=
  transferAppendStep cn toR (transferRemoveStep cn fr r)

theorem map_str_contains (l : List String) (cn : String) :
    (l.map JVal.str).contains (.str cn) = l.contains cn := by
  induction l with
  | nil => rfl
  | cons a t ih =>
    by_cases h : a = cn
    · subst h; simp
    · have hb : ¬(JVal.str a = JVal.str cn) := by
        intro hc; cases hc; exact h rfl
      simp [List.contains_cons, ih, h, hb]

theorem removeFromCities_toJVal (r : Region) (cn : String) :
    removeFromCities r.toJVal (.str cn) =
      .ok (Region.toJVal { r with cities := r.cities.erase cn }) := by
  simp [removeFromCities, Region.toJVal, JVal.lookup, assocSet,
    List.map_erase JValStr_injective]

theorem removeCityLoop_map (rs : List Region) (fr cn : String) :
    removeCityLoop (rs.map Region.toJVal) (.str fr) (.str cn) =
      .ok ((rs.map (transferRemoveStep cn fr)).map Region.toJVal) := by
  induction rs with
  | nil => rfl
  | cons r t ih =>
    by_cases hn : r.name = fr
    · by_cases hc : cn ∈ r.cities
      · have hcb : r.cities.contains cn = true := by simpa using hc
        simp [removeCityLoop, hn, Region.toJVal, JVal.lookup, pyIn, map_str_contains,
          hcb, ih, transferRemoveStep, hc, removeFromCities, assocSet,
          List.map_erase JValStr_injective]
      · have hcb : r.cities.contains cn = false := by simpa using hc
        simp [removeCityLoop, hn, Region.toJVal, JVal.lookup, pyIn, map_str_contains,
          hcb, ih, transferRemoveStep, hc]
    · have hb : ¬(JVal.str r.name = JVal.str fr) := by
        intro hcq; cases hcq; exact hn rfl
      simp [removeCityLoop, hb, ih, transferRemoveStep, hn]

theorem appendAllLoop_map (rs : List Region) (toR cn : String) :
    appendAllLoop (rs.map Region.toJVal) (.str toR) (.str cn) =
      .ok ((rs.map (transferAppendStep cn toR)).map Region.toJVal) := by
  induction rs with
  | nil => rfl
  | cons r t ih =>
    by_cases hn : r.name = toR
    · simp [appendAllLoop, hn, setdefaultAppend_toJVal, ih, transferAppendStep]
    · have hb : ¬(JVal.str r.name = JVal.str toR) := by
        intro hcq; cases hcq; exact hn rfl
      simp [appendAllLoop, hb, ih, transferAppendStep, hn]

theorem firstRegionNamed_eq_find (rs : List Region) (rn : String) :
    rs.find? (fun r => r.name == rn) = firstRegionNamed rs rn := by
  induction rs with
  | nil => rfl
  | cons r t ih =>
    by_cases hn : r.name = rn
    · simp [firstRegionNamed, hn]
    · have hb : (r.name == rn) = false := by simp [hn]
      simp [firstRegionNamed, hn, hb, ih]

theorem firstRegionNamed_name (rs : List Region) (rn : String) (r0 : Region)
    (h : firstRegionNamed rs rn = some r0) : r0.name = rn := by
  induction rs with
  | nil => simp [firstRegionNamed] at h
  | cons r t ih =>
    by_cases hn : r.name = rn
    · simp [firstRegionNamed, hn] at h
      rw [← h]; exact hn
    · simp [firstRegionNamed, hn] at h
      exact ih h

theorem firstRegionNamed_map (f : Region → Region) (hf : ∀ r, (f r).name = r.name)
    (rs : List Region) (rn : String) :
    firstRegionNamed (rs.map f) rn = (firstRegionNamed rs rn).map f := by
  induction rs with
  | nil => rfl
  | cons r t ih =>
    by_cases hn : r.name = rn
    · simp [firstRegionNamed, hf, hn]
    · simp [firstRegionNamed, hf, hn, ih]

/-- The validator accepts a `transfer_city` update whose op-specific checks
pass: the three fields are non-empty strings, both regions exist, the city is
a key of the city mapping, and the source region's cities list contains it
(validator.py lines 68-80; region names assumed unique as the spec's data
model requires, so the validator's `regions[from]` helper-dict lookup is the
source region). -/
theorem validate_transfer_ok (w : World) (cn fr toR : String) (rf rt : Region)
    (hnd : (w.regions.map Region.name).Nodup)
    (hcn : cn ≠ "") (hfr : fr ≠ "") (hto : toR ≠ "")
    (hfind : firstRegionNamed w.regions fr = some rf)
    (hfindT : firstRegionNamed w.regions toR = some rt)
    (hcity : (JVal.lookup (cityMapToJVal w.cities) cn).isSome = true)
    (hin : cn ∈ rf.cities) :
    validate_update w.toJVal (transferPayload cn fr toR) = .ok validTrue := by
  have hlookup : JVal.lookup (regionsDict w.regions) fr = some rf.toJVal := by
    rw [lookup_regionsDict, findRev_eq_find_of_nodup _ _ hnd, firstRegionNamed_eq_find,
      hfind]
    rfl
  have htoMem : (JVal.lookup (regionsDict w.regions) toR).isSome = true := by
    rw [lookup_regionsDict_isSome]
    exact firstRegionNamed_any w.regions toR rt hfindT
  have hinb : rf.cities.contains cn = true := by simpa using hin
  have hton : ¬(JVal.lookup (regionsDict w.regions) toR = none) := by
    intro h; rw [h] at htoMem; simp at htoMem
  simp [validate_update, transferPayload, parseWorld_toJVal, toJVal_get_regions,
    toJVal_get_cities, asList_arr, regionsDictOf_map, JVal.lookup, JVal.truthy,
    hcn, hfr, hto, keyMem, htoMem, hton, pyIn, hcity, pyDictGet, hlookup,
    Region.toJVal, map_str_contains, hinb, hin]

/-- Full effect of `apply_update` on an accepted `transfer_city` update
against a canonical world (world_engine.py lines 172-185): the first loop
erases the city name from every source-named region listing it, the second
appends it to every destination-named region, everything else — in
particular the city mapping and each city's record — is untouched; one
snapshot tagged `transfer_city:<city>:<from>-><to>` is created when
`snapshot` is on. -/
theorem apply_transfer (w : World) (cn fr toR : String) (rf rt : Region)
    (snap : Bool) (sid now : String) (st : SnapState)
    (hnd : (w.regions.map Region.name).Nodup)
    (hcn : cn ≠ "") (hfr : fr ≠ "") (hto : toR ≠ "")
    (hfind : firstRegionNamed w.regions fr = some rf)
    (hfindT : firstRegionNamed w.regions toR = some rt)
    (hcity : (JVal.lookup (cityMapToJVal w.cities) cn).isSome = true)
    (hin : cn ∈ rf.cities) :
    apply_update w.toJVal (transferPayload cn fr toR) snap sid now st =
      .ok (okResult (World.toJVal { w with regions :=
          ((w.regions.map (transferRemoveStep cn fr)).map (transferAppendStep cn toR)) }),
        World.toJVal { w with regions :=
          ((w.regions.map (transferRemoveStep cn fr)).map (transferAppendStep cn toR)) },
        if snap then
          (create_snapshot (World.toJVal { w with regions :=
              ((w.regions.map (transferRemoveStep cn fr)).map (transferAppendStep cn toR)) })
            (some ("transfer_city:" ++ cn ++ ":" ++ fr ++ "->" ++ toR)) sid now st).2
        else st) := by
  have hval := validate_transfer_ok w cn fr toR rf rt hnd hcn hfr hto hfind hfindT hcity hin
  have hval2 : validate_update
      (JVal.obj [("name", .str w.name), ("regions", .arr (w.regions.map Region.toJVal)),
        ("cities", .obj (cityMapToJVal w.cities)), ("metadata", .obj w.metadata),
        ("created_at", (w.created_at.map JVal.str).getD .null)])
      (transferPayload cn fr toR) = .ok validTrue := by
    have h2 := hval
    simp only [World.toJVal] at h2
    exact h2
  rw [show transferPayload cn fr toR = JVal.obj [("op", .str "transfer_city"),
    ("city", .str cn), ("from", .str fr), ("to", .str toR)] from rfl] at hval2
  simp [apply_update, hval2, transferPayload, World.toJVal, JVal.lookup,
    removeCityLoop_map, appendAllLoop_map, pySetKey, assocSet, JVal.pyStr,
    -List.map_map]

theorem transferRemoveStep_name (cn fr : String) (r : Region) :
    (transferRemoveStep cn fr r).name = r.name := by
  unfold transferRemoveStep
  by_cases h : (r.name = fr ∧ cn ∈ r.cities) <;> simp [h]

theorem transferAppendStep_name (cn toR : String) (r : Region) :
    (transferAppendStep cn toR r).name = r.name := by
  unfold transferAppendStep
  by_cases h : r.name = toR <;> simp [h]

/-- Claim C6: a valid `transfer_city` update (distinct existing source and
destination regions, unique region names, the city a key of the city mapping
and listed by the source region) removes the city's name from the source
region's cities list, appends it to the destination region's list, and
leaves the world's city mapping — hence the city's own record — unchanged. -/
theorem C6_theorem (w : World) (cn fr toR : String) (rf rt : Region)
    (snap : Bool) (sid now : String) (st : SnapState)
    (hnd : (w.regions.map Region.name).Nodup)
    (hfrto : fr ≠ toR)
    (hcn : cn ≠ "") (hfr : fr ≠ "") (hto : toR ≠ "")
    (hfind : firstRegionNamed w.regions fr = some rf)
    (hfindT : firstRegionNamed w.regions toR = some rt)
    (hcity : (JVal.lookup (cityMapToJVal w.cities) cn).isSome = true)
    (hin : cn ∈ rf.cities) :
    validate_update w.toJVal (transferPayload cn fr toR) = .ok validTrue ∧
    ∃ st2,
      apply_update w.toJVal (transferPayload cn fr toR) snap sid now st =
        .ok (okResult (World.toJVal { w with regions :=
            ((w.regions.map (transferRemoveStep cn fr)).map (transferAppendStep cn toR)) }),
          World.toJVal { w with regions :=
            ((w.regions.map (transferRemoveStep cn fr)).map (transferAppendStep cn toR)) },
          st2) ∧
      firstRegionNamed ((w.regions.map (transferRemoveStep cn fr)).map
          (transferAppendStep cn toR)) fr =
        some { rf with cities := rf.cities.erase cn } ∧
      firstRegionNamed ((w.regions.map (transferRemoveStep cn fr)).map
          (transferAppendStep cn toR)) toR =
        some { rt with cities := rt.cities ++ [cn] } ∧
      ({ w with regions :=
          ((w.regions.map (transferRemoveStep cn fr)).map (transferAppendStep cn toR)) }
        : World).cities = w.cities := by
  have hrfname := firstRegionNamed_name w.regions fr rf hfind
  have hrtname := firstRegionNamed_name w.regions toR rt hfindT
  refine ⟨validate_transfer_ok w cn fr toR rf rt hnd hcn hfr hto hfind hfindT hcity hin,
    _, apply_transfer w cn fr toR rf rt snap sid now st hnd hcn hfr hto hfind hfindT
      hcity hin, ?_, ?_, rfl⟩
  · rw [firstRegionNamed_map _ (transferAppendStep_name cn toR),
      firstRegionNamed_map _ (transferRemoveStep_name cn fr), hfind]
    have h1 : transferRemoveStep cn fr rf = { rf with cities := rf.cities.erase cn } := by
      simp [transferRemoveStep, hrfname, hin]
    have h2 : transferAppendStep cn toR { rf with cities := rf.cities.erase cn } =
        { rf with cities := rf.cities.erase cn } := by
      simp [transferAppendStep, hrfname, hfrto]
    simp [h1, h2]
  · rw [firstRegionNamed_map _ (transferAppendStep_name cn toR),
      firstRegionNamed_map _ (transferRemoveStep_name cn fr), hfindT]
    have h1 : transferRemoveStep cn fr rt = rt := by
      have : ¬(rt.name = fr) := by rw [hrtname]; exact fun hc => hfrto hc.symm
      simp [transferRemoveStep, this]
    have h2 : transferAppendStep cn toR rt = { rt with cities := rt.cities ++ [cn] } := by
      simp [transferAppendStep, hrtname]
    simp [h1, h2]

/-- Witness for C6 at the spec's own scenario: Frostgate moves from
Northland to Southreach. -/
theorem C6_witness :
    validate_update (World.toJVal ⟨"W",
        [⟨"Northland", ["Frostgate"], []⟩, ⟨"Southreach", [], []⟩],
        [("Frostgate", ⟨"Frostgate", 10, []⟩)], [], none⟩)
      (transferPayload "Frostgate" "Northland" "Southreach") = .ok validTrue ∧
    ∃ st2,
      apply_update (World.toJVal ⟨"W",
          [⟨"Northland", ["Frostgate"], []⟩, ⟨"Southreach", [], []⟩],
          [("Frostgate", ⟨"Frostgate", 10, []⟩)], [], none⟩)
        (transferPayload "Frostgate" "Northland" "Southreach") true "sid" "now" ⟨[], []⟩ =
        .ok (okResult (World.toJVal { (⟨"W",
            [⟨"Northland", ["Frostgate"], []⟩, ⟨"Southreach", [], []⟩],
            [("Frostgate", ⟨"Frostgate", 10, []⟩)], [], none⟩ : World) with regions :=
            ((([⟨"Northland", ["Frostgate"], []⟩, ⟨"Southreach", [], []⟩] :
              List Region).map (transferRemoveStep "Frostgate" "Northland")).map
              (transferAppendStep "Frostgate" "Southreach")) }),
          World.toJVal { (⟨"W",
            [⟨"Northland", ["Frostgate"], []⟩, ⟨"Southreach", [], []⟩],
            [("Frostgate", ⟨"Frostgate", 10, []⟩)], [], none⟩ : World) with regions :=
            ((([⟨"Northland", ["Frostgate"], []⟩, ⟨"Southreach", [], []⟩] :
              List Region).map (transferRemoveStep "Frostgate" "Northland")).map
              (transferAppendStep "Frostgate" "Southreach")) },
          st2) ∧
      firstRegionNamed ((([⟨"Northland", ["Frostgate"], []⟩, ⟨"Southreach", [], []⟩] :
          List Region).map (transferRemoveStep "Frostgate" "Northland")).map
          (transferAppendStep "Frostgate" "Southreach")) "Northland" =
        some ⟨"Northland", [], []⟩ ∧
      firstRegionNamed ((([⟨"Northland", ["Frostgate"], []⟩, ⟨"Southreach", [], []⟩] :
          List Region).map (transferRemoveStep "Frostgate" "Northland")).map
          (transferAppendStep "Frostgate" "Southreach")) "Southreach" =
        some ⟨"Southreach", ["Frostgate"], []⟩ ∧
      ({ (⟨"W", [⟨"Northland", ["Frostgate"], []⟩, ⟨"Southreach", [], []⟩],
          [("Frostgate", ⟨"Frostgate", 10, []⟩)], [], none⟩ : World) with regions :=
          ((([⟨"Northland", ["Frostgate"], []⟩, ⟨"Southreach", [], []⟩] :
            List Region).map (transferRemoveStep "Frostgate" "Northland")).map
            (transferAppendStep "Frostgate" "Southreach")) } : World).cities =
        [("Frostgate", ⟨"Frostgate", 10, []⟩)] :=
  C6_theorem ⟨"W", [⟨"Northland", ["Frostgate"], []⟩, ⟨"Southreach", [], []⟩],
      [("Frostgate", ⟨"Frostgate", 10, []⟩)], [], none⟩
    "Frostgate" "Northland" "Southreach" ⟨"Northland", ["Frostgate"], []⟩
    ⟨"Southreach", [], []⟩ true "sid" "now" ⟨[], []⟩
    (by decide) (by decide) (by decide) (by decide) (by decide) (by decide) (by decide)
    (by decide) (by decide)

/-! ## Claim C9: totality of suggest_event -/

@[simp] theorem dictKeys_obj (kvs : List (String × JVal)) :
    dictKeys (.obj kvs) = .ok (kvs.map fun p => JVal.str p.1) := rfl

theorem regionNamesLoop_map (rs : List Region) :
    regionNamesLoop (rs.map Region.toJVal) = .ok (rs.map fun r => JVal.str r.name) := by
  induction rs with
  | nil => rfl
  | cons r t ih => simp [regionNamesLoop, ih]

/-- Counterexample to claim C9: on a world with one region and an empty city
mapping, the `discover_resource` template's `random.choice(list(cities.keys()))`
raises `IndexError` — `suggest_event` is not total on worlds with regions but
no cities. -/
theorem C9_counterexample :
    suggest_event (World.toJVal ⟨"W", [⟨"R", [], []⟩], [], [], none⟩) 0 (fun _ => 0) "T" =
      .error .indexErr := by
  decide

/-- Claim C9 (amended): `suggest_event` returns the sentinel event on a world
with no regions, and returns a timestamped event for every random draw on
every world with at least one region and at least one city; with regions but
an empty city mapping the city-interpolating templates raise `IndexError`
instead (see the counterexample), so the claim's totality only holds when
the city mapping is non-empty.  The embedding reads the world and touches no
store, mirroring the code, which only builds the event value. -/
theorem C9_theorem (w : World) (tsel : Nat) (pick : Nat → Nat) (now : String) :
    (w.regions = [] →
      suggest_event w.toJVal tsel pick now =
        .ok (.obj [("event", .str "No regions to generate events for.")])) ∧
    (w.regions ≠ [] → w.cities ≠ [] → ∃ ty tx : String,
      suggest_event w.toJVal tsel pick now =
        .ok (.obj [("type", .str ty), ("text", .str tx),
          ("timestamp", .str (now ++ "Z"))])) := by
  constructor
  · intro h
    simp [suggest_event, toJVal_get_regions, toJVal_get_cities, h, JVal.truthy]
  · intro hr hc
    have hrne : (w.regions.map Region.toJVal) ≠ [] := by
      intro h2; exact hr (List.map_eq_nil_iff.mp h2)
    have htr : (JVal.arr (w.regions.map Region.toJVal)).truthy = true := by
      cases h2 : w.regions.map Region.toJVal with
      | nil => exact absurd h2 hrne
      | cons a t => simp [JVal.truthy]
    have hklen : ((cityMapToJVal w.cities).map (fun p => JVal.str p.1)).length ≠ 0 := by
      simp [cityMapToJVal]
      intro h2
      exact hc h2
    have hnlen : (w.regions.map (fun r => JVal.str r.name)).length ≠ 0 := by
      simp
      intro h2
      exact hr h2
    have hcm : cityMapToJVal w.cities ≠ [] := fun h2 =>
      hc (by simpa [cityMapToJVal] using h2)
    have hnm : (w.regions.map fun r => JVal.str r.name) ≠ [] := fun h2 =>
      hr (by simpa using h2)
    have h4 : tsel % 4 = 0 ∨ tsel % 4 = 1 ∨ tsel % 4 = 2 ∨ tsel % 4 = 3 := by omega
    rcases h4 with h4 | h4 | h4 | h4 <;>
      simp [suggest_event, toJVal_get_regions, toJVal_get_cities, htr, h4,
        regionNames, regionNamesLoop_map, pyChoice, hklen, hnlen, hcm, hnm, assocSet]

/-- Witness for C9 (amended), second half, at a concrete input. -/
theorem C9_witness :
    ∃ ty tx : String,
      suggest_event (World.toJVal ⟨"W", [⟨"R", ["C"], []⟩], [("C", ⟨"C", 10, []⟩)], [], none⟩)
        1 (fun _ => 0) "T" =
        .ok (.obj [("type", .str ty), ("text", .str tx), ("timestamp", .str ("T" ++ "Z"))]) :=
  ( C9_theorem ⟨"W", [⟨"R", ["C"], []⟩], [("C", ⟨"C", 10, []⟩)], [], none⟩ 1 (fun _ => 0)
    "T").2 (by decide) (by decide)

/-! ## Claim C8: listing snapshots -/

/-- Claim C8: when every stored file that deserializes to a dict carries a
string `created_at` (which is the shape `create_snapshot` persists),
`list_snapshots` succeeds and returns exactly one `{id, tag, created_at}`
summary per such file — entries that fail to deserialize are silently
skipped, without aborting the listing — ordered newest first by
`created_at`. -/
theorem C8_theorem (st : Store)
    (hok : (st.filterMap fun p => snapEntry p.2).all snapKeyOk = true) :
    ∃ l, list_snapshots st = .ok l ∧
      l.Perm (st.filterMap fun p => snapEntry p.2) ∧
      l.Sorted snapLE := by
  refine ⟨List.insertionSort snapLE (st.filterMap fun p => snapEntry p.2), ?_, ?_, ?_⟩
  · simp [list_snapshots, hok]
  · exact List.perm_insertionSort snapLE _
  · exact List.sorted_insertionSort snapLE _

/-- Witness for C8 at a concrete store: two well-formed snapshot files and
one corrupt file. -/
theorem C8_witness :
    ∃ l, list_snapshots
        [("a", some (.obj [("id", .str "a"), ("tag", .str ""), ("created_at", .str "2")])),
         ("bad", none),
         ("c", some (.obj [("id", .str "c"), ("tag", .str "x"), ("created_at", .str "9")]))] =
      .ok l ∧
      l.Perm ([("a", some (JVal.obj [("id", JVal.str "a"), ("tag", JVal.str ""),
          ("created_at", JVal.str "2")])),
        ("bad", none),
        ("c", some (JVal.obj [("id", JVal.str "c"), ("tag", JVal.str "x"),
          ("created_at", JVal.str "9")]))].filterMap
          fun p => snapEntry p.2) ∧
      l.Sorted snapLE :=
  C8_theorem _ (by decide)
